import Mathlib

/-!
# Verification of the symptom-checker core (src/app.py)

Shallow embedding of the decision logic of the Streamlit health-assistant
app.  Strings are Lean `String`s; Python's case-fold `str.lower()` is
modelled by mapping `Char.toLower` over the characters, and Python's
substring test `a in b` by a boolean scan `containsSub b a` related below
to the canonical contiguous-substring predicate `List.IsInfix`.

The classifier object `SymptomChecker` (file `symptom_checker_complete.py`)
is not part of the sources; where a claim depends on it, its behaviour is
modelled from the specification (see the doc comments starting
"Modelled from the spec:").  Everything else is translated directly from
`src/app.py`.
-/

namespace MDM

/-- Case-folding of a string, modelling Python's `str.lower()`. -/
def lowerStr (s : String) : String :=
  String.mk (s.data.map Char.toLower)

/-- `containsSub hay need` models Python's substring test `need in hay`:
`true` iff `need` occurs contiguously inside `hay`. -/
def containsSub (hay need : List Char) : Bool :=
  match hay with
  | [] => need.isEmpty
  | _ :: t => need.isPrefixOf hay || containsSub t need

/-- `containsSub` decides the contiguous-substring relation `<:+:`. -/
theorem containsSub_iff_isInfix (need hay : List Char) :
    containsSub hay need = true ↔ need <:+: hay := by
  induction hay with
  | nil => simp [containsSub, List.isEmpty_iff]
  | cons a t ih =>
    simp only [containsSub, Bool.or_eq_true, List.isPrefixOf_iff_prefix, ih]
    exact List.infix_cons_iff.symm

/-! ## Data model -/

/-- One entry of the chat history (`add_to_chat` in src/app.py builds
`{'role', 'message', 'timestamp'}`; the wall-clock timestamp is abstracted
as a `Nat` supplied by the caller of each step). -/
structure ChatMsg where
  role : String
  message : String
  timestamp : Nat
deriving DecidableEq

/-- The per-session Streamlit state used by the core logic:
`st.session_state.chat_history`, `st.session_state.selected_symptoms` and
`st.session_state.conversation_stage` (src/app.py lines 85-90). -/
structure SessionState where
  chatHistory : List ChatMsg
  selectedSymptoms : List String
  conversationStage : String
deriving DecidableEq

/-- Severity / urgency / action triple returned by the advice resolver. -/
structure AdviceInfo where
  severity : String
  urgency : String
  action : String
deriving DecidableEq

/-- Modelled from the spec: the `SymptomChecker` object of
`symptom_checker_complete.py` is not among the sources.  Per §6 it exposes
the ordered symptom Catalog (`get_all_symptoms`), the external classifier
as a black-box probability query over encoded vectors, and the advice
table mapping labels to `AdviceInfo`. -/
structure Checker where
  symptoms : List String
  probs : List Nat → List (String × ℚ)
  adviceTable : List (String × AdviceInfo)

/-- The result dictionary produced by `SymptomChecker.predict` as consumed
by `format_disease_result` and `chat_mode` in src/app.py. -/
structure DiagnosisResult where
  disease : String
  confidence : ℚ
  severity : String
  urgency : String
  action : String
  recognizedSymptoms : List String
  alternativeDiagnoses : List (String × ℚ)
  needsMoreInfo : Bool
deriving DecidableEq

/-- Error taxonomy of §7 of the spec. -/
inductive PredictError where
  | insufficientInput
  | encodingError
  | modelUnavailable
deriving DecidableEq

/-! ## Spec-modelled diagnosis pipeline (symptom_checker_complete.py) -/

/-- Modelled from the spec (§4.2 Vector Encoder): position `i` of the
vector is 1 iff `Catalog[i]` is in the active symptom set. -/
def encodeVector (selected catalog : List String) : List Nat :=
  catalog.map (fun s => if s ∈ selected then 1 else 0)

/-- Modelled from the spec (§4.4 Diagnosis Ranker): sort candidates by
probability descending, stable tie-break by native label order. -/
def rankCandidates (dist : List (String × ℚ)) : List (String × ℚ) :=
  dist.insertionSort (fun a b => b.2 ≤ a.2)

/-- Modelled from the spec (§4.5): the default tuple for labels absent
from the advice table. -/
def defaultAdvice : AdviceInfo :=
  { severity := "unknown"
    urgency := "Consult a healthcare professional for evaluation"
    action := "Seek professional consultation" }

/-- Modelled from the spec (§4.5 Severity & Advice Resolver): lookup by
case-folded exact match, degrading to `defaultAdvice` when absent. -/
def lookupAdvice (table : List (String × AdviceInfo)) (label : String) : AdviceInfo :=
  match table.find? (fun p => lowerStr p.1 == lowerStr label) with
  | some p => p.2
  | none => defaultAdvice

/-- Modelled from the spec: `SymptomChecker.predict`
(symptom_checker_complete.py, absent from the sources), assembled from the
§4.2-§4.5 contracts: guard empty input with `InsufficientInput` (§4.4, §7),
guard an empty Catalog with `EncodingError` (§4.2), encode, query the
classifier, rank, confidence = top probability × 100, `needsMoreInfo` iff
confidence < 70, advice from the table with default fallback. -/
def Checker.predictE (c : Checker) (syms : List String) :
    Except PredictError DiagnosisResult :=
  if syms.isEmpty then .error .insufficientInput
  else if c.symptoms.isEmpty then .error .encodingError
  else
    match rankCandidates (c.probs (encodeVector syms c.symptoms)) with
    | [] => .error .modelUnavailable
    | top :: rest =>
      .ok { disease := top.1
            confidence := top.2 * 100
            severity := (lookupAdvice c.adviceTable top.1).severity
            urgency := (lookupAdvice c.adviceTable top.1).urgency
            action := (lookupAdvice c.adviceTable top.1).action
            recognizedSymptoms := syms
            alternativeDiagnoses := top :: rest
            needsMoreInfo := decide (top.2 * 100 < 70) }

/-! ## Translated src/app.py session logic -/

/-- `add_to_chat` (src/app.py lines 106-112): append a message to the
chat history. -/
def addChat (st : SessionState) (role message : String) (t : Nat) : SessionState :=
  { st with chatHistory := st.chatHistory ++ [⟨role, message, t⟩] }

/-- The free-text symptom matcher of `chat_mode` (src/app.py lines
280-282): `found_symptoms = [s for s in all_symptoms if s in input_lower]`
where `input_lower = user_input.lower()`. -/
def foundSymptoms (c : Checker) (input : String) : List String :=
  c.symptoms.filter (fun s => containsSub (lowerStr input).data s.data)

/-- Symptom accumulation of `chat_mode` (src/app.py lines 285-286):
`selected_symptoms.extend(found); selected_symptoms = list(set(...))`.
Python's `list(set(..))` returns the distinct elements in an unspecified
order; we model it as `List.dedup` of the extended list, which agrees
with it as a set. -/
def dedupUnion (selected found : List String) : List String :=
  (selected ++ found).dedup

/-- The bot reply text assembled in `chat_mode` (src/app.py lines
292-307). -/
def botResponse (found : List String) (result : Except PredictError DiagnosisResult) : String :=
  match result with
  | .ok r =>
    "I have identified the following symptoms: " ++ String.intercalate ", " found ++
      ". Based on your symptoms, you may have: " ++ r.disease ++
      ". Recommended Action: " ++ r.action ++ ". Urgency: " ++ r.urgency ++
      (if r.needsMoreInfo then
        " Would you like to provide more symptoms for a more accurate assessment?"
      else "")
  | .error _ => "I have identified the following symptoms: " ++ String.intercalate ", " found

/-- The fixed reply when no symptom is recognized (src/app.py line 306). -/
def noSymptomMsg : String :=
  "I did not recognize any specific symptoms in your message. Could you please describe your symptoms?"

/-- The send-message handler of `chat_mode` (src/app.py lines 275-309).
Runs only when the Send button is pressed with a non-empty input
(`if send_button and user_input:`).  Returns the new session state
together with the list of symptom lists passed to `checker.predict`
during the turn, so that classifier invocations are observable. -/
def chatSend (c : Checker) (st : SessionState) (input : String) (t : Nat) :
    SessionState × List (List String) :=
  if input.isEmpty then (st, [])
  else
    let st1 := addChat st "user" input t
    let found := foundSymptoms c input
    if found.isEmpty then
      (addChat st1 "bot" noSymptomMsg t, [])
    else
      let newSel := dedupUnion st1.selectedSymptoms found
      let st2 := { st1 with selectedSymptoms := newSel }
      let result := c.predictE newSel
      (addChat st2 "bot" (botResponse found result) t, [newSel])

/-- The "Get Diagnosis" handler of `chat_mode` (src/app.py lines 312-324):
the button exists only inside `if st.session_state.selected_symptoms:`,
so with an empty accumulated set no diagnosis can be requested (`none`);
otherwise `checker.predict(selected_symptoms)` is called and the state is
left untouched. -/
def getDiagnosisStep (c : Checker) (st : SessionState) :
    SessionState × Option (Except PredictError DiagnosisResult) :=
  if st.selectedSymptoms.isEmpty then (st, none)
  else (st, some (c.predictE st.selectedSymptoms))

/-- The "Analyze Symptoms" handler of `quick_check_mode` (src/app.py lines
357-364): the button is `disabled=len(selected) == 0` and its body is
guarded by `if selected:`, so `checker.predict` runs iff the checked set
is non-empty. -/
def quickCheckAnalyze (c : Checker) (selected : List String) :
    Option (Except PredictError DiagnosisResult) :=
  if selected.isEmpty then none
  else some (c.predictE selected)

/-- The per-symptom remove button of `chat_mode` (src/app.py lines
315-319): `st.session_state.selected_symptoms.remove(symptom)` deletes
the first occurrence, leaving the rest of the session state alone. -/
def removeSymptomStep (st : SessionState) (x : String) : SessionState :=
  { st with selectedSymptoms := st.selectedSymptoms.erase x }

/-- The "Start New Consultation" button handler (src/app.py lines
224-228): clear the chat history, clear the selected symptoms, and set
the conversation stage back to greeting. -/
def newConsultation (_st : SessionState) : SessionState :=
  { chatHistory := [], selectedSymptoms := [], conversationStage := "greeting" }

/-- The search filter of `quick_check_mode` (src/app.py lines 337-340):
`[s for s in all_symptoms if search.lower() in s.lower()]` when the search
box is non-empty, the whole catalog otherwise. -/
def filteredSymptoms (c : Checker) (search : String) : List String :=
  if search.isEmpty then c.symptoms
  else c.symptoms.filter (fun s => containsSub (lowerStr s).data (lowerStr search).data)

/-- The checkbox list of `quick_check_mode` (src/app.py line 348):
`for idx, symptom in enumerate(filtered_symptoms[:100])` — only the first
100 filtered symptoms are rendered as selectable checkboxes. -/
def offeredSymptoms (c : Checker) (search : String) : List String :=
  (filteredSymptoms c search).take 100

/-- Decidable equality for `Except`, so concrete diagnosis outcomes can be
checked computationally. -/
instance {e a : Type} [DecidableEq e] [DecidableEq a] : DecidableEq (Except e a) := fun x y =>
  match x, y with
  | .error u, .error v =>
    if h : u = v then .isTrue (congrArg Except.error h)
    else .isFalse (fun hh => h (Except.error.inj hh))
  | .ok u, .ok v =>
    if h : u = v then .isTrue (congrArg Except.ok h)
    else .isFalse (fun hh => h (Except.ok.inj hh))
  | .error _, .ok _ => .isFalse (fun hh => Except.noConfusion hh)
  | .ok _, .error _ => .isFalse (fun hh => Except.noConfusion hh)

/-! ## Concrete fixtures used to instantiate the theorems -/

/-- A one-symptom checker whose classifier always answers flu with
probability 41/50 = 0.82. -/
def fluChecker : Checker :=
  { symptoms := ["fever"]
    probs := fun _ => [("flu", (41 : ℚ) / 50)]
    adviceTable := [] }

/-- A fresh session: empty history, no symptoms, greeting stage. -/
def freshSession : SessionState :=
  { chatHistory := [], selectedSymptoms := [], conversationStage := "greeting" }

/-- A session that has already accumulated the symptom fever. -/
def feverSession : SessionState :=
  { chatHistory := [], selectedSymptoms := ["fever"], conversationStage := "greeting" }

/-- A session holding fever and cough, used for the removal claim. -/
def feverCoughSession : SessionState :=
  { chatHistory := [], selectedSymptoms := ["fever", "cough"], conversationStage := "greeting" }

/-- A three-symptom checker for the removal/encoding claim. -/
def triChecker : Checker :=
  { symptoms := ["fever", "cough", "headache"]
    probs := fun _ => [("flu", (41 : ℚ) / 50)]
    adviceTable := [] }

/-- The diagnosis `fluChecker.predictE ["fever"]` evaluates to. -/
def fluResult : DiagnosisResult :=
  { disease := "flu"
    confidence := 82
    severity := "unknown"
    urgency := defaultAdvice.urgency
    action := defaultAdvice.action
    recognizedSymptoms := ["fever"]
    alternativeDiagnoses := [("flu", (41 : ℚ) / 50)]
    needsMoreInfo := false }

/-- A one-row advice table, for the default-lookup claim. -/
def fluAdviceTable : List (String × AdviceInfo) :=
  [("flu", { severity := "moderate"
             urgency := "See a doctor within 24 hours"
             action := "Rest and hydrate" })]

/-- A catalog of 101 pairwise distinct one-character symptom names, used
to exercise the 100-checkbox cutoff of quick-check mode. -/
def bigCatalog : List String :=
  (List.range 101).map (fun n => String.mk [Char.ofNat (65 + n)])

/-- A checker over `bigCatalog`. -/
def bigChecker : Checker :=
  { symptoms := bigCatalog
    probs := fun _ => [("flu", (41 : ℚ) / 50)]
    adviceTable := [] }

/-! ## Claim theorems -/

/-- C1: requesting a diagnosis while the accumulated symptom set is empty
is impossible from both request paths of src/app.py (the chat-mode button
only exists when `selected_symptoms` is non-empty, the quick-check button
is disabled and guarded), and the spec-modelled `predict` fails with
`InsufficientInput` on an empty set without consulting the classifier:
its outcome is the same for every probability function `f`, so the
classifier is never invoked on the all-zero vector. -/
theorem empty_diagnosis_insufficient_input (c : Checker) (st : SessionState)
    (sel : List String) (hst : st.selectedSymptoms = []) (hsel : sel = []) :
    (getDiagnosisStep c st).2 = none ∧
    quickCheckAnalyze c sel = none ∧
    c.predictE [] = .error .insufficientInput ∧
    (∀ f, (Checker.mk c.symptoms f c.adviceTable).predictE [] = .error .insufficientInput) := by
  refine ⟨?_, ?_, rfl, fun f => rfl⟩
  · simp [getDiagnosisStep, hst]
  · simp [quickCheckAnalyze, hsel]

/-- Witness for C1 at the concrete fixtures. -/
theorem empty_diagnosis_insufficient_input_witness :
    (getDiagnosisStep fluChecker freshSession).2 = none ∧
    quickCheckAnalyze fluChecker [] = none ∧
    fluChecker.predictE [] = .error .insufficientInput ∧
    (Checker.mk fluChecker.symptoms (fun _ => []) fluChecker.adviceTable).predictE []
      = .error .insufficientInput := by
  have h := empty_diagnosis_insufficient_input fluChecker freshSession [] rfl rfl
  exact ⟨h.1, h.2.1, h.2.2.1, h.2.2.2 (fun _ => [])⟩

/-- C2: every successful `DiagnosisResult` has `needsMoreInfo = true` iff
its `confidencePercent` is strictly below 70 (so in particular `false`
at exactly 70). -/
theorem needs_more_info_iff_confidence_lt_70 (c : Checker) (syms : List String)
    (r : DiagnosisResult) (h : c.predictE syms = .ok r) :
    r.needsMoreInfo = true ↔ r.confidence < 70 := by
  unfold Checker.predictE at h
  split at h
  · exact absurd h (by simp)
  · split at h
    · exact absurd h (by simp)
    · split at h
      · exact absurd h (by simp)
      · obtain rfl := Except.ok.inj h
        simp

/-- Witness for C2: the fixture prediction has confidence 82 and
`needsMoreInfo = false`. -/
theorem needs_more_info_iff_confidence_lt_70_witness :
    fluChecker.predictE ["fever"] = .ok fluResult ∧
    (fluResult.needsMoreInfo = true ↔ fluResult.confidence < 70) := by
  have h : fluChecker.predictE ["fever"] = .ok fluResult := by
    norm_num [Checker.predictE, fluChecker, encodeVector, rankCandidates,
      List.insertionSort, List.orderedInsert, lookupAdvice, fluResult, defaultAdvice]
  exact ⟨h, needs_more_info_iff_confidence_lt_70 fluChecker ["fever"] fluResult h⟩

/-- C3: in free-text mode a (normalized) Catalog entry is reported as
present iff it occurs as a contiguous substring of the case-folded
utterance; the matcher depends only on the input and the Catalog. -/
theorem free_text_match_iff_substring (c : Checker) (input s : String)
    (hmem : s ∈ c.symptoms) (hnorm : lowerStr s = s) :
    (s ∈ foundSymptoms c input ↔ (lowerStr s).data <:+: (lowerStr input).data) ∧
    (∀ c' : Checker, c'.symptoms = c.symptoms →
      foundSymptoms c' input = foundSymptoms c input) := by
  constructor
  · rw [hnorm]
    simp [foundSymptoms, List.mem_filter, hmem, containsSub_iff_isInfix]
  · intro c' hc
    simp [foundSymptoms, hc]

/-- Witness for C3: "fever" is found in "I think I have a Fever". -/
theorem free_text_match_iff_substring_witness :
    ("fever" ∈ foundSymptoms fluChecker "I think I have a Fever" ↔
      (lowerStr "fever").data <:+: (lowerStr "I think I have a Fever").data) ∧
    foundSymptoms (Checker.mk fluChecker.symptoms (fun _ => []) []) "I think I have a Fever"
      = foundSymptoms fluChecker "I think I have a Fever" := by
  have h := free_text_match_iff_substring fluChecker "I think I have a Fever" "fever"
    (by decide) (by decide)
  exact ⟨h.1, h.2 _ rfl⟩

/-- C4: symptom accumulation is set union — the accumulated collection is
duplicate-free after every submission, and submitting only
already-present SymptomIds leaves the accumulated set unchanged. -/
theorem symptom_accumulation_set_union (selected found : List String) :
    (dedupUnion selected found).Nodup ∧
    ((∀ x ∈ found, x ∈ selected) →
      ∀ x, x ∈ dedupUnion selected found ↔ x ∈ selected) := by
  refine ⟨List.nodup_dedup _, fun hsub x => ?_⟩
  simp only [dedupUnion, List.mem_dedup, List.mem_append]
  exact ⟨fun h => h.elim id (hsub x), Or.inl⟩

/-- Witness for C4: re-submitting "fever" changes nothing, as a set. -/
theorem symptom_accumulation_set_union_witness :
    (dedupUnion ["fever", "cough"] ["fever"]).Nodup ∧
    ("fever" ∈ dedupUnion ["fever", "cough"] ["fever"] ↔ "fever" ∈ ["fever", "cough"]) := by
  have h := symptom_accumulation_set_union ["fever", "cough"] ["fever"]
  exact ⟨h.1, h.2 (by decide) "fever"⟩

/-- C5 counterexample: an ordinary chat message turn — not the explicit
"Get Diagnosis" action — already invokes `checker.predict` (src/app.py
line 289): sending "i have a fever" to a fresh session triggers one
pipeline invocation on ["fever"]. -/
theorem chat_turn_invokes_pipeline_counterexample :
    (chatSend fluChecker freshSession "i have a fever" 0).2 = [["fever"]] ∧
    ([["fever"]] : List (List String)) ≠ [] := by
  exact ⟨by decide, by decide⟩

/-- C5 (amended): the diagnosis pipeline is invoked on the explicit
"Get Diagnosis" action (when the accumulated set is non-empty) and also
on every chat message turn whose text matches at least one Catalog entry;
the get-diagnosis action returns its result without modifying the session
state, in particular without clearing the accumulated symptom set. -/
theorem diagnosis_invocation_and_frame (c : Checker) (st : SessionState)
    (input : String) (t : Nat) :
    (getDiagnosisStep c st).1 = st ∧
    (st.selectedSymptoms ≠ [] →
      (getDiagnosisStep c st).2 = some (c.predictE st.selectedSymptoms)) ∧
    ((chatSend c st input t).2 ≠ [] ↔
      (input ≠ "" ∧ foundSymptoms c input ≠ [])) := by
  refine ⟨?_, ?_, ?_⟩
  · unfold getDiagnosisStep
    split <;> rfl
  · intro h
    simp [getDiagnosisStep, List.isEmpty_iff, h]
  · unfold chatSend
    by_cases hi : input.isEmpty
    · have heq : input = "" := (String.isEmpty_iff input).mp hi
      subst heq
      simp [hi]
    · have hne : input ≠ "" := by
        intro hq
        rw [hq] at hi
        exact hi (by decide)
      by_cases hf : (foundSymptoms c input).isEmpty
      · have hfe : foundSymptoms c input = [] := List.isEmpty_iff.mp hf
        simp [hi, hf, hfe, hne]
      · have hfe : foundSymptoms c input ≠ [] := fun hq => by
          rw [List.isEmpty_iff] at hf
          exact hf hq
        simp [hi, hf, hne, hfe]

/-- Witness for C5 (amended) at the concrete fixtures. -/
theorem diagnosis_invocation_and_frame_witness :
    (getDiagnosisStep fluChecker feverSession).1 = feverSession ∧
    (getDiagnosisStep fluChecker feverSession).2 =
      some (fluChecker.predictE feverSession.selectedSymptoms) ∧
    ((chatSend fluChecker feverSession "i have a fever" 0).2 ≠ [] ↔
      (("i have a fever" : String) ≠ "" ∧ foundSymptoms fluChecker "i have a fever" ≠ [])) := by
  have h := diagnosis_invocation_and_frame fluChecker feverSession "i have a fever" 0
  exact ⟨h.1, h.2.1 (by decide), h.2.2⟩

/-- C6: with a fixed checker and Catalog, requesting a diagnosis is
deterministic and leaves the state unchanged, so requesting it twice over
the same accumulated set yields identical results. -/
theorem rediagnosis_deterministic (c : Checker) (st : SessionState)
    (h : st.selectedSymptoms ≠ []) :
    (getDiagnosisStep c st).2 = some (c.predictE st.selectedSymptoms) ∧
    (getDiagnosisStep c ((getDiagnosisStep c st).1)).2 = (getDiagnosisStep c st).2 := by
  have h1 : (getDiagnosisStep c st).1 = st := by
    unfold getDiagnosisStep
    split <;> rfl
  refine ⟨?_, by rw [h1]⟩
  simp [getDiagnosisStep, List.isEmpty_iff, h]

/-- Witness for C6 at the concrete fixtures. -/
theorem rediagnosis_deterministic_witness :
    (getDiagnosisStep fluChecker feverSession).2 =
      some (fluChecker.predictE feverSession.selectedSymptoms) ∧
    (getDiagnosisStep fluChecker ((getDiagnosisStep fluChecker feverSession).1)).2 =
      (getDiagnosisStep fluChecker feverSession).2 :=
  rediagnosis_deterministic fluChecker feverSession (by decide)

/-- C7: the explicit "new consultation" action, from any session state,
returns to the greeting stage with empty symptom set and empty history. -/
theorem new_consultation_resets (st : SessionState) :
    (newConsultation st).conversationStage = "greeting" ∧
    (newConsultation st).selectedSymptoms = [] ∧
    (newConsultation st).chatHistory = [] :=
  ⟨rfl, rfl, rfl⟩

/-- C8: removing a previously added SymptomId changes only the
accumulated set — history and stage are untouched — and the removed id is
gone from the set, so every Catalog position holding it encodes to 0 in
the next diagnosis vector. -/
theorem remove_symptom_frame_and_encoding (c : Checker) (st : SessionState) (x : String)
    (hnd : st.selectedSymptoms.Nodup) (_hx : x ∈ st.selectedSymptoms) :
    (removeSymptomStep st x).chatHistory = st.chatHistory ∧
    (removeSymptomStep st x).conversationStage = st.conversationStage ∧
    x ∉ (removeSymptomStep st x).selectedSymptoms ∧
    (∀ i : Nat, c.symptoms[i]? = some x →
      (encodeVector (removeSymptomStep st x).selectedSymptoms c.symptoms)[i]? = some 0) := by
  have hnm : x ∉ st.selectedSymptoms.erase x := by
    intro hmem
    exact (hnd.mem_erase_iff.mp hmem).1 rfl
  refine ⟨rfl, rfl, hnm, fun i hi => ?_⟩
  simp [encodeVector, List.getElem?_map, hi, removeSymptomStep, hnm]

/-- Witness for C8: removing "fever" from a fever-and-cough session. -/
theorem remove_symptom_frame_and_encoding_witness :
    (removeSymptomStep feverCoughSession "fever").chatHistory = feverCoughSession.chatHistory ∧
    (removeSymptomStep feverCoughSession "fever").conversationStage
      = feverCoughSession.conversationStage ∧
    "fever" ∉ (removeSymptomStep feverCoughSession "fever").selectedSymptoms ∧
    (encodeVector (removeSymptomStep feverCoughSession "fever").selectedSymptoms
      triChecker.symptoms)[0]? = some 0 := by
  have h := remove_symptom_frame_and_encoding triChecker feverCoughSession "fever"
    (by decide) (by decide)
  exact ⟨h.1, h.2.1, h.2.2.1, h.2.2.2 0 (by decide)⟩

/-- C9: the severity/advice lookup is total by construction, and any
label matching no table row (by case-folded comparison) receives exactly
the default tuple: severity unknown with the generic
seek-professional-consultation text. -/
theorem advice_lookup_total_default (table : List (String × AdviceInfo)) (label : String)
    (h : ∀ p ∈ table, lowerStr p.1 ≠ lowerStr label) :
    lookupAdvice table label = defaultAdvice ∧
    defaultAdvice.severity = "unknown" ∧
    defaultAdvice.action = "Seek professional consultation" := by
  refine ⟨?_, rfl, rfl⟩
  unfold lookupAdvice
  have hf : table.find? (fun p => lowerStr p.1 == lowerStr label) = none := by
    rw [List.find?_eq_none]
    intro p hp
    simpa using h p hp
  rw [hf]

/-- Witness for C9: "rare_disease_x" is absent from the one-row table and
degrades to the default tuple. -/
theorem advice_lookup_total_default_witness :
    lookupAdvice fluAdviceTable "rare_disease_x" = defaultAdvice ∧
    defaultAdvice.severity = "unknown" ∧
    defaultAdvice.action = "Seek professional consultation" :=
  advice_lookup_total_default fluAdviceTable "rare_disease_x" (by decide)

/-- C10: quick-check mode offers at most the first 100 filtered symptoms
as checkboxes; when the filtered list is duplicate-free, any symptom at
position 100 or later is not among the offered checkboxes. -/
theorem quick_check_first_100_only (c : Checker) (search : String)
    (hnd : (filteredSymptoms c search).Nodup) :
    (offeredSymptoms c search).length ≤ 100 ∧
    (∀ i : Nat, 100 ≤ i → ∀ hi : i < (filteredSymptoms c search).length,
      (filteredSymptoms c search).get ⟨i, hi⟩ ∉ offeredSymptoms c search) := by
  constructor
  · simp [offeredSymptoms, List.length_take_le 100 (filteredSymptoms c search)]
  · intro i h100 hi hmem
    rw [offeredSymptoms] at hmem
    obtain ⟨j, hj, hjeq⟩ := List.mem_iff_getElem.mp hmem
    have hj100 : j < 100 := lt_of_lt_of_le hj (List.length_take_le 100 _)
    have hjlen : j < (filteredSymptoms c search).length := by
      have := List.length_take 100 (filteredSymptoms c search)
      omega
    rw [List.getElem_take] at hjeq
    have hij : j = i := by
      have hinj := @List.Nodup.getElem_inj_iff _ _ hnd j hjlen i hi
      simp only [List.get_eq_getElem] at hjeq
      exact hinj.mp hjeq
    omega

/-- Witness for C10: over a 101-entry catalog with an empty search, the
symptom at position 100 is not offered. -/
theorem quick_check_first_100_only_witness :
    (offeredSymptoms bigChecker "").length ≤ 100 ∧
    (filteredSymptoms bigChecker "").get ⟨100, by decide⟩ ∉ offeredSymptoms bigChecker "" := by
  have h := quick_check_first_100_only bigChecker "" (by decide)
  exact ⟨h.1, h.2 100 (by decide) (by decide)⟩

end MDM
